import Mathlib

/-!
# Race clock of SuperTuxKart (`src/modes/clock.hpp`)

A shallow embedding of the `Clock` class: the two enumerations, the data
members and the member functions whose bodies the header gives inline
(`isStartPhase`, `isRacePhase`, `getPhase`, `getMode`, `getTime`).

The header only declares `Clock()`, `reset`, `setMode`, `updateClock`,
`setTime`, `pause`, `unpause`, `raceOver` and `registerEventListener`; their
bodies live in a translation unit that is not part of the sources at hand.
Those operations are modelled from the written specification of the clock and
every such definition says so in its doc comment.

`float` values are represented by exact rationals: the development uses only
order, addition, subtraction and the clamp at zero, no rounding behaviour.
-/

/-- Timer mode, `enum ClockType` (clock.hpp lines 23-28). -/
inductive ClockType where
  | CLOCK_NONE
  | CHRONO
  | COUNTDOWN
deriving DecidableEq, Repr

/-- Race phase, `enum Phase` (clock.hpp lines 30-49), in declaration order. -/
inductive Phase where
  | SETUP_PHASE
  | READY_PHASE
  | SET_PHASE
  | GO_PHASE
  | RACE_PHASE
  | DELAY_FINISH_PHASE
  | FINISH_PHASE
  | LIMBO_PHASE
deriving DecidableEq, Repr

/-- The integer value C++ gives each enumerator of `Phase`: its position in the
declaration, starting at 0. The comparisons `<` and `>=` of the header act on
these values. -/
def Phase.ord : Phase → Nat
  | .SETUP_PHASE => 0
  | .READY_PHASE => 1
  | .SET_PHASE => 2
  | .GO_PHASE => 3
  | .RACE_PHASE => 4
  | .DELAY_FINISH_PHASE => 5
  | .FINISH_PHASE => 6
  | .LIMBO_PHASE => 7

/-- The integer value of each enumerator of `ClockType`. -/
def ClockType.ord : ClockType → Int
  | .CLOCK_NONE => 0
  | .CHRONO => 1
  | .COUNTDOWN => 2

/-- Data members of `class Clock` (clock.hpp lines 83-107). `m_listener` is a
possibly null pointer: `none` is the null pointer, `some l` a listener with
identity `l`. The two sound handles `m_prestart_sound` and `m_start_sound` are
fixed for the lifetime of the object and carry no state of the clock; a play
request on them is recorded as an effect (see `Sound`). -/
structure Clock where
  m_time : ℚ
  m_mode : ClockType
  m_listener : Option Nat
  m_phase : Phase
  m_auxiliary_timer : ℚ
  m_previous_phase : Phase
deriving DecidableEq

namespace Clock

/-- Inline body `return m_phase<GO_PHASE;` (clock.hpp line 115). -/
def isStartPhase (c : Clock) : Bool :=
  decide (c.m_phase.ord < Phase.GO_PHASE.ord)

/-- Inline body `return m_phase>=GO_PHASE && m_phase<LIMBO_PHASE;`
(clock.hpp line 116). -/
def isRacePhase (c : Clock) : Bool :=
  decide (c.m_phase.ord ≥ Phase.GO_PHASE.ord) && decide (c.m_phase.ord < Phase.LIMBO_PHASE.ord)

/-- Inline body `return m_mode;` with result type `int` (clock.hpp line 125). -/
def getMode (c : Clock) : Int := c.m_mode.ord

end Clock

/-! ## Observable effects -/

/-- The three pure virtual member functions of `Clock::ClockListener`
(clock.hpp lines 61-80). -/
inductive Callback where
  | countdownReachedZero
  | onGo
  | onTerminate
deriving DecidableEq, Repr

/-- The two sound cues of the clock, `m_prestart_sound` and `m_start_sound`
(clock.hpp lines 83-84). -/
inductive Sound where
  | m_prestart_sound
  | m_start_sound
deriving DecidableEq, Repr

/-- What a call on the clock does to the outside: it invokes one member
function of the listener with identity `listener`, or asks a sound to play. -/
inductive Effect where
  | call (listener : Nat) (cb : Callback)
  | play (sound : Sound)
deriving DecidableEq, Repr

/-- Recognises an invocation of `onTerminate`, on whichever listener. -/
def Effect.isOnTerminate : Effect → Bool
  | .call _ .onTerminate => true
  | _ => false

/-- Modelled from the spec: the durations the clock compares its auxiliary
timer with are constants of the missing implementation file; the spec names
them only as "designed thresholds" (READY to SET, SET to GO), the "go-display
duration" and the "configured grace duration". They are parameters here. -/
structure Durations where
  set_at : ℚ
  go_at : ℚ
  go_display : ℚ
  grace : ℚ

namespace Clock

/-- Modelled from the spec: how the clock notifies its listener (the call
sites are in the missing implementation file). "A missing/unregistered listener
simply suppresses notifications." -/
def notify (c : Clock) (cb : Callback) : List Effect :=
  match c.m_listener with
  | some l => [Effect.call l cb]
  | none => []

/-- Modelled from the spec: the constructor `Clock::Clock()`, declared at
clock.hpp line 109 without a body. The spec fixes the initial values through
`reset()`, which "returns all fields to initial values" and whose result matches
"a freshly constructed instance except for listener registration": phase SETUP,
mode NONE, both timers 0, no listener. -/
def ctor : Clock :=
  { m_time := 0
    m_mode := ClockType.CLOCK_NONE
    m_listener := none
    m_phase := Phase.SETUP_PHASE
    m_auxiliary_timer := 0
    m_previous_phase := Phase.SETUP_PHASE }

/-- Modelled from the spec: `Clock::reset()`, declared at clock.hpp line 112
without a body. "sets phase = SETUP, mode = NONE, time = 0, auxiliary_timer = 0,
clears previous_phase. Does not clear the registered listener. No side effects
beyond state reset". -/
def reset (c : Clock) : Clock :=
  { c with
    m_phase := Phase.SETUP_PHASE
    m_mode := ClockType.CLOCK_NONE
    m_time := 0
    m_auxiliary_timer := 0
    m_previous_phase := Phase.SETUP_PHASE }

/-- Modelled from the spec: `Clock::setMode`, declared at clock.hpp line 124
without a body. Sets the mode and `time = initial_time`; "Calling setMode does
not itself change phase." -/
def setMode (mode : ClockType) (initial_time : ℚ) (c : Clock) : Clock :=
  { c with m_mode := mode, m_time := initial_time }

/-- Modelled from the spec: `Clock::setTime`, declared at clock.hpp line 132
without a body. "direct override of the race timer value ... a raw value
assignment, not a tick": no phase or mode change, no event. -/
def setTime (time : ℚ) (c : Clock) : Clock :=
  { c with m_time := time }

/-- Modelled from the spec: `Clock::registerEventListener`, declared at
clock.hpp line 139 without a body. "replaces the current listener reference". -/
def registerEventListener (listener : Option Nat) (c : Clock) : Clock :=
  { c with m_listener := listener }

/-- Modelled from the spec: the phase `pause()` parks the clock in. The spec
calls it "a non-advancing sentinel"; `m_phase` has type `Phase`, and of its
eight values LIMBO is the one documented as "no-op entirely; no calculations
performed" (clock.hpp line 47: "where no calculations are done"). -/
def pauseSentinel : Phase := Phase.LIMBO_PHASE

/-- Modelled from the spec: `Clock::pause()`, declared at clock.hpp line 134
without a body. "saves previous_phase = phase then sets phase to a
non-advancing sentinel"; "a second pause() while already paused must not
overwrite previous_phase with the sentinel". Timers are left alone. -/
def pause (c : Clock) : Clock :=
  if c.m_phase = pauseSentinel then c
  else { c with m_previous_phase := c.m_phase, m_phase := pauseSentinel }

/-- Modelled from the spec: `Clock::unpause()`, declared at clock.hpp line 135
without a body. "restores phase = previous_phase"; unpause-while-not-paused is
"silently idempotent". -/
def unpause (c : Clock) : Clock :=
  if c.m_phase = pauseSentinel then { c with m_phase := c.m_previous_phase }
  else c

/-- Modelled from the spec: `Clock::raceOver`, declared at clock.hpp line 137
without a body. "If delay == true, transitions to DELAY_FINISH (starting the
grace window, auxiliary_timer reset to 0). If delay == false, transitions
directly to FINISH and invokes listener->onTerminate() immediately. Calling
raceOver when already past RACE phase is a no-op". -/
def raceOver (delay : Bool) (c : Clock) : Clock × List Effect :=
  if Phase.RACE_PHASE.ord < c.m_phase.ord then (c, [])
  else if delay then
    ({ c with m_phase := Phase.DELAY_FINISH_PHASE, m_auxiliary_timer := 0 }, [])
  else
    ({ c with m_phase := Phase.FINISH_PHASE }, c.notify Callback.onTerminate)

/-- Modelled from the spec: the race-timer part of a tick in GO or RACE phase
(part of the missing body of `Clock::updateClock`). "If mode == CHRONO,
time += dt. If mode == COUNTDOWN, time -= dt, clamped to a floor of 0; the
instant time reaches 0 (transition from positive to zero/negative), invoke
listener->countdownReachedZero() exactly once, then clamp." Mode NONE
"disables time display/advancement entirely". -/
def advanceRaceTime (dt : ℚ) (c : Clock) : Clock × List Effect :=
  match c.m_mode with
  | .CLOCK_NONE => (c, [])
  | .CHRONO => ({ c with m_time := c.m_time + dt }, [])
  | .COUNTDOWN =>
    ({ c with m_time := max (c.m_time - dt) 0 },
      if 0 < c.m_time ∧ c.m_time - dt ≤ 0 then c.notify Callback.countdownReachedZero else [])

/-- Modelled from the spec: the zero-length countdown rule (part of the
missing body of `Clock::updateClock`). For a countdown set to a time that is
not positive "the countdown zero-event fires as soon as race phase is entered":
it "fires countdownReachedZero() on the very first race-phase tick (even with
dt = 0)". The first race-phase tick is a call made in GO phase while the
auxiliary timer still holds the 0 it was "reset" to "on entering GO". A clock
further into the race whose time is 0 is one whose time "remains clamped at 0",
for which the event must not fire again. -/
def zeroLengthEvent (c : Clock) : List Effect :=
  if c.m_phase = Phase.GO_PHASE ∧ c.m_auxiliary_timer = 0 ∧
      c.m_mode = ClockType.COUNTDOWN ∧ c.m_time ≤ 0
  then c.notify Callback.countdownReachedZero else []

/-- Modelled from the spec: what a tick with positive `dt` does in each phase
(part of the missing body of `Clock::updateClock`).

* SETUP, FINISH, LIMBO: nothing happens.
* READY / SET: "auxiliary_timer += dt"; at the threshold the phase advances;
  "On entering SET, trigger prestart_sound. On entering GO, trigger start_sound
  and invoke listener->onGo() exactly once"; the auxiliary timer is "reset on
  entering GO".
* GO / RACE: the race timer advances (`advanceRaceTime`); in GO the zero-length
  countdown rule applies, the auxiliary timer runs and the "Phase auto-advances
  GO to RACE after the go-display duration elapses".
* DELAY_FINISH: "auxiliary_timer += dt"; "When auxiliary_timer exceeds the
  configured grace duration, force-advance to FINISH ... and invoke
  listener->onTerminate()". -/
def phaseTick (d : Durations) (dt : ℚ) (c : Clock) : Clock × List Effect :=
  match c.m_phase with
  | .SETUP_PHASE => (c, [])
  | .READY_PHASE =>
    if d.set_at ≤ c.m_auxiliary_timer + dt then
      ({ c with m_auxiliary_timer := c.m_auxiliary_timer + dt, m_phase := Phase.SET_PHASE },
        [Effect.play Sound.m_prestart_sound])
    else ({ c with m_auxiliary_timer := c.m_auxiliary_timer + dt }, [])
  | .SET_PHASE =>
    if d.go_at ≤ c.m_auxiliary_timer + dt then
      ({ c with m_auxiliary_timer := 0, m_phase := Phase.GO_PHASE },
        Effect.play Sound.m_start_sound :: c.notify Callback.onGo)
    else ({ c with m_auxiliary_timer := c.m_auxiliary_timer + dt }, [])
  | .GO_PHASE =>
    if d.go_display ≤ c.m_auxiliary_timer + dt then
      ({ (advanceRaceTime dt c).1 with
          m_auxiliary_timer := c.m_auxiliary_timer + dt, m_phase := Phase.RACE_PHASE },
        c.zeroLengthEvent ++ (advanceRaceTime dt c).2)
    else
      ({ (advanceRaceTime dt c).1 with m_auxiliary_timer := c.m_auxiliary_timer + dt },
        c.zeroLengthEvent ++ (advanceRaceTime dt c).2)
  | .RACE_PHASE => advanceRaceTime dt c
  | .DELAY_FINISH_PHASE =>
    if d.grace < c.m_auxiliary_timer + dt then
      ({ c with m_auxiliary_timer := c.m_auxiliary_timer + dt, m_phase := Phase.FINISH_PHASE },
        c.notify Callback.onTerminate)
    else ({ c with m_auxiliary_timer := c.m_auxiliary_timer + dt }, [])
  | .FINISH_PHASE => (c, [])
  | .LIMBO_PHASE => (c, [])

/-- Modelled from the spec: `Clock::updateClock`, declared at clock.hpp line
129 without a body. "Negative or zero dt must be tolerated as a no-op tick (no
time regresses; no spurious events fire)": such a tick changes no member. Its
one possible event is that of the zero-length countdown rule, which the spec
asks for "even with dt = 0" (`zeroLengthEvent`). A tick with positive `dt` does
what the phase prescribes (`phaseTick`). -/
def updateClock (d : Durations) (dt : ℚ) (c : Clock) : Clock × List Effect :=
  if dt < 0 then (c, [])
  else if dt = 0 then (c, c.zeroLengthEvent)
  else phaseTick d dt c

/-- A run of frames: `updateClock` called once for each `dt` of the list, in
order; the effects of the calls are collected in order. -/
def ticks (d : Durations) : List ℚ → Clock → Clock × List Effect
  | [], c => (c, [])
  | dt :: rest, c =>
    ((ticks d rest (updateClock d dt c).1).1,
      (updateClock d dt c).2 ++ (ticks d rest (updateClock d dt c).1).2)

end Clock

/-- One call on the public interface of `Clock` (clock.hpp lines 112-139),
with its arguments. -/
inductive Op where
  | reset
  | setMode (mode : ClockType) (initial_time : ℚ)
  | updateClock (dt : ℚ)
  | setTime (time : ℚ)
  | pause
  | unpause
  | raceOver (delay : Bool)
  | registerEventListener (listener : Option Nat)

/-- Performs one call: the new state of the clock and the effects of the call. -/
def Op.apply (d : Durations) : Op → Clock → Clock × List Effect
  | .reset, c => (c.reset, [])
  | .setMode mode t, c => (c.setMode mode t, [])
  | .updateClock dt, c => c.updateClock d dt
  | .setTime t, c => (c.setTime t, [])
  | .pause, c => (c.pause, [])
  | .unpause, c => (c.unpause, [])
  | .raceOver delay, c => c.raceOver delay
  | .registerEventListener l, c => (c.registerEventListener l, [])

/-- Performs a sequence of calls in order, collecting the effects. -/
def Clock.run (d : Durations) : List Op → Clock → Clock × List Effect
  | [], c => (c, [])
  | op :: rest, c =>
    ((Clock.run d rest (op.apply d c).1).1,
      (op.apply d c).2 ++ (Clock.run d rest (op.apply d c).1).2)

/-- Sample durations: SET shown from 1 s, GO from 2 s, "go" displayed for 3 s,
grace window of 5 s. -/
def sampleDurations : Durations :=
  { set_at := 1, go_at := 2, go_display := 3, grace := 5 }

/-- Sample clock: a countdown in RACE phase with 4 s left and listener 1. -/
def sampleRaceClock : Clock :=
  { m_time := 4
    m_mode := ClockType.COUNTDOWN
    m_listener := some 1
    m_phase := Phase.RACE_PHASE
    m_auxiliary_timer := 3
    m_previous_phase := Phase.SETUP_PHASE }

namespace Clock

/-- Claim C1: for every value of `Phase`, `isStartPhase()` returns true exactly
when the ordinal of the phase is below that of `GO_PHASE`, which is exactly
when the phase is `SETUP_PHASE`, `READY_PHASE` or `SET_PHASE`. -/
theorem isStartPhase_iff_before_GO (c : Clock) :
    (c.isStartPhase = true ↔ c.m_phase.ord < Phase.GO_PHASE.ord) ∧
    (c.isStartPhase = true ↔
      c.m_phase = Phase.SETUP_PHASE ∨ c.m_phase = Phase.READY_PHASE ∨
        c.m_phase = Phase.SET_PHASE) := by
  obtain ⟨t, m, l, p, a, q⟩ := c
  cases p <;> simp [isStartPhase, Phase.ord]

/-- Claim C2: for every value of `Phase`, `isRacePhase()` returns true exactly
when `GO_PHASE <= phase < LIMBO_PHASE` on ordinals, which is exactly when the
phase is `GO_PHASE`, `RACE_PHASE`, `DELAY_FINISH_PHASE` or `FINISH_PHASE`. -/
theorem isRacePhase_iff_GO_to_FINISH (c : Clock) :
    (c.isRacePhase = true ↔
      Phase.GO_PHASE.ord ≤ c.m_phase.ord ∧ c.m_phase.ord < Phase.LIMBO_PHASE.ord) ∧
    (c.isRacePhase = true ↔
      c.m_phase = Phase.GO_PHASE ∨ c.m_phase = Phase.RACE_PHASE ∨
        c.m_phase = Phase.DELAY_FINISH_PHASE ∨ c.m_phase = Phase.FINISH_PHASE) := by
  obtain ⟨t, m, l, p, a, q⟩ := c
  cases p <;> simp [isRacePhase, Phase.ord]

/-- Claim C3: the ordinals of the eight phases follow the documented sequence
SETUP < READY < SET < GO <= RACE < DELAY_FINISH < FINISH < LIMBO, and for every
clock the two predicates are the ordinal comparisons at the split points of
that sequence: start is `phase < GO`, race is `GO <= phase < LIMBO`. -/
theorem phase_ordinals_and_split_points :
    (Phase.SETUP_PHASE.ord < Phase.READY_PHASE.ord ∧
      Phase.READY_PHASE.ord < Phase.SET_PHASE.ord ∧
      Phase.SET_PHASE.ord < Phase.GO_PHASE.ord ∧
      Phase.GO_PHASE.ord ≤ Phase.RACE_PHASE.ord ∧
      Phase.RACE_PHASE.ord < Phase.DELAY_FINISH_PHASE.ord ∧
      Phase.DELAY_FINISH_PHASE.ord < Phase.FINISH_PHASE.ord ∧
      Phase.FINISH_PHASE.ord < Phase.LIMBO_PHASE.ord) ∧
    ∀ c : Clock,
      c.isStartPhase = decide (c.m_phase.ord < Phase.GO_PHASE.ord) ∧
      c.isRacePhase =
        decide (Phase.GO_PHASE.ord ≤ c.m_phase.ord ∧ c.m_phase.ord < Phase.LIMBO_PHASE.ord) := by
  refine ⟨by decide, fun c => ?_⟩
  obtain ⟨t, m, l, p, a, q⟩ := c
  cases p <;> simp [isStartPhase, isRacePhase, Phase.ord]

/-- Claim C4 (evaluation of the code): whatever the other members hold, a clock
whose phase is `GO_PHASE` answers false to `isStartPhase()` and true to
`isRacePhase()`, so the two are not both true there. -/
theorem GO_PHASE_is_race_phase_only (c : Clock) :
    ({ c with m_phase := Phase.GO_PHASE } : Clock).isStartPhase = false ∧
    ({ c with m_phase := Phase.GO_PHASE } : Clock).isRacePhase = true := by
  simp [isStartPhase, isRacePhase, Phase.ord]

/-- Claim C10: for every value of `Phase`, `isStartPhase()` and `isRacePhase()`
are never both true; exactly one of `isStartPhase()`, `isRacePhase()` and
`phase == LIMBO_PHASE` holds; and `LIMBO_PHASE` is the only phase in which both
predicates are false. -/
theorem start_race_limbo_exactly_one (c : Clock) :
    ¬ (c.isStartPhase = true ∧ c.isRacePhase = true) ∧
    ((c.isStartPhase = true ∧ c.isRacePhase = false ∧ c.m_phase ≠ Phase.LIMBO_PHASE) ∨
      (c.isStartPhase = false ∧ c.isRacePhase = true ∧ c.m_phase ≠ Phase.LIMBO_PHASE) ∨
      (c.isStartPhase = false ∧ c.isRacePhase = false ∧ c.m_phase = Phase.LIMBO_PHASE)) ∧
    ((c.isStartPhase = false ∧ c.isRacePhase = false) ↔ c.m_phase = Phase.LIMBO_PHASE) := by
  obtain ⟨t, m, l, p, a, q⟩ := c
  cases p <;> simp [isStartPhase, isRacePhase, Phase.ord]

end Clock

/-! ## Pause and resume -/

namespace Clock

/-- The race-timer step keeps the phase, the auxiliary timer and the saved
phase. -/
theorem advanceRaceTime_frame (dt : ℚ) (c : Clock) :
    (advanceRaceTime dt c).1.m_phase = c.m_phase ∧
    (advanceRaceTime dt c).1.m_auxiliary_timer = c.m_auxiliary_timer ∧
    (advanceRaceTime dt c).1.m_previous_phase = c.m_previous_phase ∧
    (advanceRaceTime dt c).1.m_mode = c.m_mode := by
  unfold advanceRaceTime
  split <;> simp

/-- A tick of a clock parked in LIMBO changes nothing and has no effect. -/
theorem updateClock_LIMBO (d : Durations) (dt : ℚ) (c : Clock)
    (h : c.m_phase = Phase.LIMBO_PHASE) : updateClock d dt c = (c, []) := by
  unfold updateClock
  split
  · rfl
  · split
    · simp [zeroLengthEvent, h]
    · simp [phaseTick, h]

/-- Any number of ticks of a clock parked in LIMBO change nothing. -/
theorem ticks_LIMBO (d : Durations) (dts : List ℚ) (c : Clock)
    (h : c.m_phase = Phase.LIMBO_PHASE) : ticks d dts c = (c, []) := by
  induction dts with
  | nil => rfl
  | cons dt rest ih => simp [ticks, updateClock_LIMBO d dt c h, ih]

/-- No tick with positive `dt` moves a clock into LIMBO. -/
theorem phaseTick_ne_LIMBO (d : Durations) (dt : ℚ) (c : Clock)
    (h : c.m_phase ≠ Phase.LIMBO_PHASE) :
    (phaseTick d dt c).1.m_phase ≠ Phase.LIMBO_PHASE := by
  unfold phaseTick
  split
  · simp_all
  · split <;> simp_all
  · split <;> simp_all
  · split <;> simp [(advanceRaceTime_frame dt c).1, *]
  · simp [(advanceRaceTime_frame dt c).1, *]
  · split <;> simp_all
  · simp_all
  · simp_all

/-- No tick moves a clock into LIMBO. -/
theorem updateClock_ne_LIMBO (d : Durations) (dt : ℚ) (c : Clock)
    (h : c.m_phase ≠ Phase.LIMBO_PHASE) :
    (updateClock d dt c).1.m_phase ≠ Phase.LIMBO_PHASE := by
  unfold updateClock
  split
  · exact h
  · split
    · exact h
    · exact phaseTick_ne_LIMBO d dt c h

/-- No run of ticks moves a clock into LIMBO. -/
theorem ticks_ne_LIMBO (d : Durations) (dts : List ℚ) (c : Clock)
    (h : c.m_phase ≠ Phase.LIMBO_PHASE) :
    (ticks d dts c).1.m_phase ≠ Phase.LIMBO_PHASE := by
  induction dts generalizing c with
  | nil => exact h
  | cons dt rest ih => exact ih _ (updateClock_ne_LIMBO d dt c h)

/-- Claim C5 (pause round-trip): take a running clock (one that is not parked
in LIMBO), let it tick through any list `before` of frame times, then call
`pause()`, `updateClock(dt)` for every `dt` of any list `during`, and
`unpause()`. Time, auxiliary timer and phase are then exactly what they were
just before `pause()`. -/
theorem pause_ticks_unpause_roundtrip (d : Durations) (c0 : Clock) (before during : List ℚ)
    (h : c0.m_phase ≠ Phase.LIMBO_PHASE) :
    (unpause (ticks d during (pause (ticks d before c0).1)).1).m_time =
        (ticks d before c0).1.m_time ∧
    (unpause (ticks d during (pause (ticks d before c0).1)).1).m_auxiliary_timer =
        (ticks d before c0).1.m_auxiliary_timer ∧
    (unpause (ticks d during (pause (ticks d before c0).1)).1).m_phase =
        (ticks d before c0).1.m_phase := by
  have hc := ticks_ne_LIMBO d before c0 h
  generalize (ticks d before c0).1 = c at hc
  have hp : (pause c).m_phase = Phase.LIMBO_PHASE := by
    simp [pause, pauseSentinel, hc]
  rw [ticks_LIMBO d during (pause c) hp]
  simp [unpause, pause, pauseSentinel, hc]

/-- Claim C5 at a concrete clock: the sample countdown in RACE phase, two
frames before the pause, three calls of `updateClock` during it. -/
theorem pause_ticks_unpause_roundtrip_witness :
    sampleRaceClock.m_phase ≠ Phase.LIMBO_PHASE ∧
    (unpause (ticks sampleDurations [1, 2, 1/3]
        (pause (ticks sampleDurations [1/4, 1/4] sampleRaceClock).1)).1).m_time =
      (ticks sampleDurations [1/4, 1/4] sampleRaceClock).1.m_time ∧
    (unpause (ticks sampleDurations [1, 2, 1/3]
        (pause (ticks sampleDurations [1/4, 1/4] sampleRaceClock).1)).1).m_auxiliary_timer =
      (ticks sampleDurations [1/4, 1/4] sampleRaceClock).1.m_auxiliary_timer ∧
    (unpause (ticks sampleDurations [1, 2, 1/3]
        (pause (ticks sampleDurations [1/4, 1/4] sampleRaceClock).1)).1).m_phase =
      (ticks sampleDurations [1/4, 1/4] sampleRaceClock).1.m_phase :=
  ⟨by decide, pause_ticks_unpause_roundtrip sampleDurations sampleRaceClock
    [1/4, 1/4] [1, 2, 1/3] (by decide)⟩

end Clock

/-! ## Termination and reset -/

namespace Clock

/-- Claim C6 (idempotent termination): from a state in which the race is not
yet over (phase not past RACE) and with a listener registered, two calls of
`raceOver(false)` in a row invoke that listener's `onTerminate()` exactly once,
in the first call; the second call returns the state unchanged and has no
effect at all. -/
theorem raceOver_twice_terminates_once (c : Clock) (l : Nat)
    (hp : c.m_phase.ord ≤ Phase.RACE_PHASE.ord) (hl : c.m_listener = some l) :
    (raceOver false c).2 = [Effect.call l Callback.onTerminate] ∧
    raceOver false (raceOver false c).1 = ((raceOver false c).1, []) ∧
    ((raceOver false c).2 ++ (raceOver false (raceOver false c).1).2).countP
      Effect.isOnTerminate = 1 := by
  have h1 : ¬ Phase.RACE_PHASE.ord < c.m_phase.ord := Nat.not_lt.mpr hp
  have e1 : raceOver false c =
      ({ c with m_phase := Phase.FINISH_PHASE }, [Effect.call l Callback.onTerminate]) := by
    simp [raceOver, h1, notify, hl]
  have e2 : raceOver false { c with m_phase := Phase.FINISH_PHASE } =
      ({ c with m_phase := Phase.FINISH_PHASE }, []) := by
    simp [raceOver, Phase.ord]
  rw [e1]
  simp only [e2]
  simp [Effect.isOnTerminate]

/-- Claim C6 at a concrete clock: the sample countdown in RACE phase. -/
theorem raceOver_twice_terminates_once_witness :
    sampleRaceClock.m_phase.ord ≤ Phase.RACE_PHASE.ord ∧
    sampleRaceClock.m_listener = some 1 ∧
    (raceOver false sampleRaceClock).2 = [Effect.call 1 Callback.onTerminate] ∧
    raceOver false (raceOver false sampleRaceClock).1 =
      ((raceOver false sampleRaceClock).1, []) ∧
    ((raceOver false sampleRaceClock).2 ++
      (raceOver false (raceOver false sampleRaceClock).1).2).countP
        Effect.isOnTerminate = 1 :=
  ⟨by decide, rfl, raceOver_twice_terminates_once sampleRaceClock 1 (by decide) rfl⟩

/-- Claim C8 (reset clears transient state): after any sequence of calls on the
public interface, started from any clock, `reset()` yields phase SETUP, mode
NONE, time 0 and auxiliary timer 0, keeps the registered listener, and the
result equals a freshly constructed clock in every member except the
listener. -/
theorem reset_after_any_run (d : Durations) (ops : List Op) (c0 : Clock) :
    (reset (run d ops c0).1).m_phase = Phase.SETUP_PHASE ∧
    (reset (run d ops c0).1).m_mode = ClockType.CLOCK_NONE ∧
    (reset (run d ops c0).1).m_time = 0 ∧
    (reset (run d ops c0).1).m_auxiliary_timer = 0 ∧
    (reset (run d ops c0).1).m_listener = (run d ops c0).1.m_listener ∧
    reset (run d ops c0).1 = { ctor with m_listener := (run d ops c0).1.m_listener } := by
  simp [reset, ctor]

end Clock

/-! ## Countdown -/

namespace Clock

end Clock

/-! ## Ticks that carry no time -/

namespace Clock

end Clock
